import Mathlib

/-
  Verification of the session lifecycle and concurrency coordination layer of
  the pyion library (pyion/bp.py, pyion/cfdp.py, pyion/ltp.py, pyion/mem.py,
  pyion/proxies.py, pyion/utils.py).

  Shallow embedding conventions:
  * Python exceptions are modelled by the PyErr type; a call that returns a
    value or raises is modelled by PyResult.
  * The native engine (the C extensions _bp, _cfdp, _ltp, _mem) is a black
    box; each engine call site takes the engine response as an explicit
    parameter and/or records the call in a trace or a counter.
  * Worker threads are modelled by explicit parameters describing whether the
    worker finished before the join deadline, together with the value the
    worker writes to the outcome slot.
-/

namespace Pyion

/-- Python exception values that appear in the modelled code paths. -/
inductive PyErr where
  | ioError (msg : String)
  | connectionError (msg : String)
  | connectionAborted (msg : String)
  | valueError (msg : String)
  | keyError
  | engineError (code : Nat)
  deriving DecidableEq, Repr

/-- Result of a Python call: a returned value or a raised exception. -/
inductive PyResult (A : Type) where
  | ok (a : A)
  | raised (e : PyErr)
  deriving DecidableEq, Repr

/-! ## Chunked send (Endpoint.bp_send, Endpoint._bp_send, Endpoint._bp_send_bundle) -/

/-- Python range(0, stop, step) for step > 0: the chunk offsets enumerated by
the loop for i in range(0, len(memv), chunk_size) in Endpoint._bp_send. -/
def py_range (stop step : Nat) : List Nat :=
  (List.range ((stop + step - 1) / step)).map (fun k => k * step)

/-- The chunk loop of Endpoint._bp_send. Each iteration performs one
_bp_send_bundle call: the engine outcome for the chunk at offset i is
engine i (none on success, some e when _bp.bp_send raises e), and
_bp_send_bundle stores exactly that into the tx_result slot (none on
success, the exception on failure); it never re-raises, so the loop always
proceeds to the next chunk. Returns the offsets for which an engine send
was attempted, and the final tx_result slot value. -/
def bp_send_loop (engine : Nat → Option PyErr) (tx : Option PyErr) :
    List Nat → List Nat × Option PyErr
  | [] => ([], tx)
  | i :: rest =>
    let tx1 := engine i
    let r := bp_send_loop engine tx1 rest
    (i :: r.1, r.2)

/-- Observable result of one Endpoint.bp_send call in chunked mode. -/
structure SendResult where
  attempted : List Nat
  tx_result : Option PyErr
  outcome : PyResult Unit
  deriving DecidableEq, Repr

/-- Endpoint.bp_send with a chunk_size set: it runs _bp_send on a worker
thread (the chunk loop over range(0, len(data), chunk_size)), joins it with
no deadline, and then raises tx_result if it holds an exception, returning
normally otherwise. tx0 is the tx_result slot value before the call. -/
def bp_send (data_len chunk_size : Nat) (engine : Nat → Option PyErr)
    (tx0 : Option PyErr) : SendResult :=
  let r := bp_send_loop engine tx0 (py_range data_len chunk_size)
  { attempted := r.1
    tx_result := r.2
    outcome := match r.2 with
      | some e => PyResult.raised e
      | none => PyResult.ok () }

theorem bp_send_loop_attempted (engine : Nat → Option PyErr) :
    ∀ (offs : List Nat) (tx : Option PyErr), (bp_send_loop engine tx offs).1 = offs := by
  intro offs
  induction offs with
  | nil => intro tx; rfl
  | cons i rest ih => intro tx; simp [bp_send_loop, ih]

theorem bp_send_loop_tx (engine : Nat → Option PyErr) :
    ∀ (offs : List Nat) (tx : Option PyErr) (lastOff : Nat),
      offs.getLast? = some lastOff → (bp_send_loop engine tx offs).2 = engine lastOff := by
  intro offs
  induction offs with
  | nil => intro tx lastOff h; cases h
  | cons i rest ih =>
    intro tx lastOff h
    cases rest with
    | nil =>
      simp only [List.getLast?_singleton, Option.some.injEq] at h
      subst h
      simp [bp_send_loop]
    | cons j rest2 =>
      rw [List.getLast?_cons_cons] at h
      simp only [bp_send_loop]
      exact ih (engine i) lastOff h

/-- Engine behavior where the send of the chunk at offset 0 fails and every
later chunk send succeeds. -/
def failFirstEngine : Nat → Option PyErr := fun i =>
  if i = 0 then some (PyErr.engineError 7) else none

/-- C1 counterexample: with a 4-byte payload, chunk_size 2, and an engine
whose send fails for the first chunk (offset 0) and succeeds for the second
(offset 2), Endpoint.bp_send attempts BOTH chunks (the loop does not abort
at the first failure) and returns normally (the first failure is not
surfaced: the successful second send overwrote tx_result with None). This
refutes the claim that the send aborts at the first failure and raises the
first failed chunk error to the caller. -/
theorem chunked_send_cex :
    (bp_send 4 2 failFirstEngine none).attempted = [0, 2] ∧
    (bp_send 4 2 failFirstEngine none).outcome = PyResult.ok () ∧
    failFirstEngine 0 = some (PyErr.engineError 7) ∧
    ¬ ((bp_send 4 2 failFirstEngine none).attempted = [0] ∧
       (bp_send 4 2 failFirstEngine none).outcome
         = PyResult.raised (PyErr.engineError 7)) := by
  decide

/-- C1 amended: in chunked mode every chunk is attempted regardless of
earlier failures (no abort, and nothing already sent is retracted), the
final tx_result slot holds the engine outcome of the LAST chunk only, and
bp_send raises an error if and only if the last chunk send failed; failures
of earlier chunks are overwritten and never reach the caller. -/
theorem chunked_send_no_abort (data_len chunk_size : Nat)
    (engine : Nat → Option PyErr) (tx0 : Option PyErr) (lastOff : Nat)
    (h : (py_range data_len chunk_size).getLast? = some lastOff) :
    (bp_send data_len chunk_size engine tx0).attempted = py_range data_len chunk_size ∧
    (bp_send data_len chunk_size engine tx0).tx_result = engine lastOff ∧
    ((bp_send data_len chunk_size engine tx0).outcome = PyResult.ok ()
       ↔ engine lastOff = none) := by
  refine ⟨bp_send_loop_attempted engine _ tx0, bp_send_loop_tx engine _ tx0 lastOff h, ?_⟩
  simp only [bp_send]
  rw [bp_send_loop_tx engine _ tx0 lastOff h]
  cases engine lastOff <;> simp

/-- Witness for chunked_send_no_abort at the concrete input of the
counterexample: 4 bytes, chunk_size 2, first chunk fails. -/
theorem chunked_send_no_abort_witness :
    (py_range 4 2).getLast? = some 2 ∧
    ((bp_send 4 2 failFirstEngine none).attempted = py_range 4 2 ∧
     (bp_send 4 2 failFirstEngine none).tx_result = failFirstEngine 2 ∧
     ((bp_send 4 2 failFirstEngine none).outcome = PyResult.ok ()
        ↔ failFirstEngine 2 = none)) :=
  ⟨by decide, chunked_send_no_abort 4 2 failFirstEngine none 2 (by decide)⟩

/-! ## Blocking receive (Endpoint.bp_receive, Endpoint._bp_receive) -/

/-- Value held by the rx_result outcome slot of an Endpoint: Python None,
a bytes payload, or a stored exception object. -/
inductive RxVal where
  | nothing
  | payload (bs : List Nat)
  | exc (e : PyErr)
  deriving DecidableEq, Repr

/-- Receive-side state of an Endpoint: its default chunk_size and timeout
(set at bp_open) and the rx_result outcome slot, plus a count of the
bp_interrupt requests issued through _bp_receive_timeout. -/
structure RxState where
  chunk_size : Option Nat
  timeout : Option Nat
  rx_result : RxVal
  interrupts : Nat
  deriving DecidableEq, Repr

/-- Python truthiness of an optional numeric argument (None and 0 are
falsy), as used by the guard if chunk_size and timeout in bp_receive. -/
def truthy : Option Nat → Bool
  | none => false
  | some n => n != 0

/-- Endpoint.bp_receive. The worker thread running _bp_receive is modelled
by two parameters: worker_result is the value it writes into rx_result when
it completes (a payload or a stored exception), and worker_finished says
whether it completed before th.join(timeout) returned. With timeout None
the join is unbounded, so the worker always completes first. On timeout,
the code calls _bp_receive_timeout (which issues proxy.bp_interrupt; here
the endpoint is open, so the interrupt is issued) and returns the CURRENT
rx_result slot value — the slot is never reset by bp_receive. -/
def bp_receive (st : RxState) (chunk_size timeout : Option Nat)
    (worker_result : RxVal) (worker_finished : Bool) : RxState × PyResult RxVal :=
  let cs := if chunk_size.isNone then st.chunk_size else chunk_size
  let tmo := if timeout.isNone then st.timeout else timeout
  if truthy cs && truthy tmo then
    (st, PyResult.raised (PyErr.valueError
      "bp_receive cannot have chunk_size and timeout at the same time."))
  else if tmo.isNone || worker_finished then
    let st1 := { st with rx_result := worker_result }
    match worker_result with
    | RxVal.exc e => (st1, PyResult.raised e)
    | v => (st1, PyResult.ok v)
  else
    ({ st with interrupts := st.interrupts + 1 }, PyResult.ok st.rx_result)

/-- Receive state left behind by a previous bp_receive call that returned
the payload [1, 2, 3]: the rx_result slot still holds that payload. -/
def staleRxState : RxState :=
  { chunk_size := none, timeout := none, rx_result := RxVal.payload [1, 2, 3],
    interrupts := 0 }

/-- C2 counterexample: a bp_receive call with timeout 5 whose worker has not
yet written anything when the timeout fires hands the caller the payload
written by the PREVIOUS call worker ([1, 2, 3]): the rx_result slot is not
reset before the new call worker starts, so a timed-out caller observes the
stale result, refuting the claim. -/
theorem bp_receive_stale_cex :
    (bp_receive staleRxState none (some 5) (RxVal.payload [9]) false).2
      = PyResult.ok (RxVal.payload [1, 2, 3]) ∧
    (bp_receive staleRxState none (some 5) (RxVal.payload [9]) false).1.rx_result
      = RxVal.payload [1, 2, 3] := by
  decide

/-- C2 amended: bp_receive never resets the rx_result slot; whenever the
endpoint has no default chunk_size, a call with an explicit timeout whose
worker has not finished when the join deadline expires issues one interrupt
and returns to the caller exactly the rx_result value held before the call
— in particular the outcome written by a previous call worker. -/
theorem bp_receive_timeout_returns_stale (st : RxState) (t : Nat)
    (worker_result : RxVal) (h : st.chunk_size = none) :
    (bp_receive st none (some t) worker_result false).2 = PyResult.ok st.rx_result ∧
    (bp_receive st none (some t) worker_result false).1.rx_result = st.rx_result ∧
    (bp_receive st none (some t) worker_result false).1.interrupts
      = st.interrupts + 1 := by
  simp [bp_receive, h, truthy]

/-- Witness for bp_receive_timeout_returns_stale at the concrete stale
state. -/
theorem bp_receive_timeout_returns_stale_witness :
    staleRxState.chunk_size = none ∧
    ((bp_receive staleRxState none (some 5) (RxVal.payload [9]) false).2
        = PyResult.ok staleRxState.rx_result ∧
     (bp_receive staleRxState none (some 5) (RxVal.payload [9]) false).1.rx_result
        = staleRxState.rx_result ∧
     (bp_receive staleRxState none (some 5) (RxVal.payload [9]) false).1.interrupts
        = staleRxState.interrupts + 1) :=
  ⟨rfl, bp_receive_timeout_returns_stale staleRxState 5 (RxVal.payload [9]) rfl⟩

/-! ## Process-wide shutdown (proxies.shutdown, invoked by pyion_sigint_handler) -/

/-- Actions a shutdown walk can perform, as seen at the proxy layer. -/
inductive ShutAction where
  | bpClose (node eid : Nat)
  | cfdpCancel (node peer : Nat)
  | cfdpClose (node peer : Nat)
  | ltpInterrupt (node client : Nat)
  | ltpClose (node client : Nat)
  | sdrClose (node : Nat)
  | psmClose (node : Nat)
  | bpDetach (node : Nat)
  | cfdpDetach (node : Nat)
  | ltpDetach (node : Nat)
  deriving DecidableEq, Repr

/-- Is this action a detach of a protocol family from the engine. -/
def ShutAction.isDetach : ShutAction → Bool
  | ShutAction.bpDetach _ => true
  | ShutAction.cfdpDetach _ => true
  | ShutAction.ltpDetach _ => true
  | _ => false

/-- A registered BpProxy: node number, attach flag, open endpoint ids. -/
structure BpProxyS where
  node : Nat
  attached : Bool
  endpoints : List Nat
  deriving DecidableEq, Repr

/-- A registered CfdpProxy: node number, attach flag, open peer entities. -/
structure CfdpProxyS where
  node : Nat
  attached : Bool
  entities : List Nat
  deriving DecidableEq, Repr

/-- A registered LtpProxy: node number, attach flag, open client ids. -/
structure LtpProxyS where
  node : Nat
  attached : Bool
  clients : List Nat
  deriving DecidableEq, Repr

/-- The module-level proxy registries of pyion.proxies (_bp_proxies,
_cfdp_proxies, _ltp_proxies, _sdr_proxies, _psm_proxies); memory proxies
are identified by their node number. -/
structure Registry where
  bpProxies : List BpProxyS
  cfdpProxies : List CfdpProxyS
  ltpProxies : List LtpProxyS
  sdrProxies : List Nat
  psmProxies : List Nat
  deriving DecidableEq, Repr

/-- The trace of proxy-layer actions performed by proxies.shutdown, in
order: for every BpProxy, bp_close_all (close each open endpoint); for
every CfdpProxy, cfdp_cancel_all then cfdp_close_all; for every LtpProxy,
ltp_interrupt_all then ltp_close_all; then close every SDR proxy and every
PSM proxy (which stops their samplers). The function performs no other
action: in particular it never calls bp_detach, cfdp_detach or ltp_detach,
and no proxy attached flag is changed. -/
def shutdown (r : Registry) : List ShutAction :=
  ((r.bpProxies.map fun p => p.endpoints.map (ShutAction.bpClose p.node)).flatten) ++
  ((r.cfdpProxies.map fun p =>
      p.entities.map (ShutAction.cfdpCancel p.node) ++
      p.entities.map (ShutAction.cfdpClose p.node)).flatten) ++
  ((r.ltpProxies.map fun p =>
      p.clients.map (ShutAction.ltpInterrupt p.node) ++
      p.clients.map (ShutAction.ltpClose p.node)).flatten) ++
  (r.sdrProxies.map ShutAction.sdrClose) ++
  (r.psmProxies.map ShutAction.psmClose)

/-- A registry with one attached proxy per family, each owning one open
session, and one SDR and one PSM proxy. -/
def fullRegistry : Registry :=
  { bpProxies := [{ node := 1, attached := true, endpoints := [11] }]
    cfdpProxies := [{ node := 1, attached := true, entities := [2] }]
    ltpProxies := [{ node := 1, attached := true, clients := [3] }]
    sdrProxies := [1]
    psmProxies := [1] }

/-- C3: the shutdown routine closes BP endpoints, cancels and closes CFDP
entities, interrupts and closes LTP access points, and closes the memory
proxies, in that order — but it never detaches any protocol family from
the engine: for every registry, the shutdown trace contains no detach
action. This contradicts the final step of the claim (and the docstring of
pyion_sigint_handler, which states that the handler detaches the proxies
from ION after closing). -/
theorem shutdown_never_detaches :
    shutdown fullRegistry =
      [ShutAction.bpClose 1 11, ShutAction.cfdpCancel 1 2, ShutAction.cfdpClose 1 2,
       ShutAction.ltpInterrupt 1 3, ShutAction.ltpClose 1 3,
       ShutAction.sdrClose 1, ShutAction.psmClose 1] ∧
    ∀ r : Registry, ((shutdown r).all fun a => !a.isDetach) = true := by
  refine ⟨by decide, ?_⟩
  intro r
  rw [List.all_eq_true]
  intro a ha
  simp only [shutdown, List.mem_append, List.mem_flatten, List.mem_map] at ha
  rcases ha with ((((⟨l, ⟨p, _, hl⟩, hal⟩ | ⟨l, ⟨p, _, hl⟩, hal⟩) | ⟨l, ⟨p, _, hl⟩, hal⟩) |
      ⟨n, _, ha⟩) | ⟨n, _, ha⟩)
  · subst hl
    rcases List.mem_map.mp hal with ⟨e, _, hae⟩
    subst hae; rfl
  · subst hl
    rcases List.mem_append.mp hal with h2 | h2 <;>
      rcases List.mem_map.mp h2 with ⟨e, _, hae⟩ <;> (subst hae; rfl)
  · subst hl
    rcases List.mem_append.mp hal with h2 | h2 <;>
      rcases List.mem_map.mp h2 with ⟨e, _, hae⟩ <;> (subst hae; rfl)
  · subst ha; rfl
  · subst ha; rfl

/-! ## CFDP event monitor (Entity._monitor_events) and transaction waiting
(Entity.wait_for_transaction_end, Entity._mark_transaction_end) -/

/-- CFDP event kinds relevant to the monitor loop: the benign no-event poll
result, the two transaction-outcome indications, the wildcard key
CFDP_ALL_IND used to register a handler for every event, and the remaining
indications abstracted by their integer code. -/
inductive CfdpEvent where
  | noEvent
  | txnFinished
  | txnAbandoned
  | allInd
  | other (code : Nat)
  deriving DecidableEq, Repr

/-- Outcome of invoking one registered event handler. -/
inductive HandlerOutcome where
  | ok
  | raiseKeyError
  | raiseOther (e : PyErr)
  deriving DecidableEq, Repr

/-- A handler table: the event_handers dict of an Entity, mapping an event
kind key to a handler; a handler receives the actual event and its
parameter bag (abstracted to a number). -/
def Handlers : Type := CfdpEvent → Option (CfdpEvent → Nat → HandlerOutcome)

/-- One guarded dispatch in _monitor_events: look up the handler registered
under key and invoke it on (evt, params), inside try/except KeyError. A
missing key (dict lookup raises KeyError) is swallowed, and so is a KeyError
raised by the handler itself; any other exception raised by the handler
escapes the guard. Returns the escaping exception, if any. -/
def dispatch_handler (handlers : Handlers) (key evt : CfdpEvent) (params : Nat) :
    Option PyErr :=
  match handlers key with
  | none => none
  | some f =>
    match f evt params with
    | HandlerOutcome.ok => none
    | HandlerOutcome.raiseKeyError => none
    | HandlerOutcome.raiseOther e => some e

/-- Transaction-signal state of an Entity: the persisted _ok_transaction
flag and the number of times _end_transaction.set() has fired (each firing
wakes every waiter; the event is cleared right after). -/
structure EntityState where
  ok_transaction : Bool
  endSignals : Nat
  deriving DecidableEq, Repr

/-- Entity._mark_transaction_end: persist the success flag, wake all
waiters by setting the event, then clear the event. -/
def mark_transaction_end (st : EntityState) (success : Bool) : EntityState :=
  { ok_transaction := success, endSignals := st.endSignals + 1 }

/-- One iteration body of Entity._monitor_events after fetching event evt
with parameters params: a no-event poll is skipped; otherwise the handler
registered for evt is dispatched, then the wildcard CFDP_ALL_IND handler,
each under try/except KeyError; finally the two transaction-outcome events
mark the transaction end. An exception escaping a dispatch terminates the
iteration (and the loop) with that exception. -/
def monitor_step (handlers : Handlers) (st : EntityState) (evt : CfdpEvent)
    (params : Nat) : PyResult EntityState :=
  if evt = CfdpEvent.noEvent then PyResult.ok st
  else
    match dispatch_handler handlers evt evt params with
    | some e => PyResult.raised e
    | none =>
      match dispatch_handler handlers CfdpEvent.allInd evt params with
      | some e => PyResult.raised e
      | none =>
        let st1 := if evt = CfdpEvent.txnFinished then mark_transaction_end st true else st
        let st2 := if evt = CfdpEvent.txnAbandoned then mark_transaction_end st1 false else st1
        PyResult.ok st2

/-- The monitor loop run over a list of fetched events (the entity stays
open throughout): returns the list of events whose iteration completed, and
either the final state or the exception that terminated the loop thread. -/
def monitor_loop (handlers : Handlers) :
    EntityState → List (CfdpEvent × Nat) → List CfdpEvent × PyResult EntityState
  | st, [] => ([], PyResult.ok st)
  | st, (evt, p) :: rest =>
    match monitor_step handlers st evt p with
    | PyResult.raised e => ([], PyResult.raised e)
    | PyResult.ok st1 =>
      let r := monitor_loop handlers st1 rest
      (evt :: r.1, r.2)

/-- A handler table with one registered handler, for event code 1, which
always raises ValueError. -/
def crashingHandlers : Handlers := fun key =>
  if key = CfdpEvent.other 1 then
    some (fun _ _ => HandlerOutcome.raiseOther (PyErr.valueError "boom"))
  else none

/-- The initial transaction-signal state of a freshly opened Entity. -/
def entityInit : EntityState := { ok_transaction := false, endSignals := 0 }

/-- C4 counterexample: with a handler registered for event code 1 that
raises ValueError, a monitor loop fetching event 1 and then event 2
terminates at the first event with that ValueError — no iteration
completes and event 2 is never fetched or dispatched — refuting the claim
that the loop keeps running regardless of handler failure (only KeyError
from a handler is swallowed by the try/except KeyError guard). -/
theorem monitor_handler_crash_cex :
    monitor_loop crashingHandlers entityInit [(CfdpEvent.other 1, 0), (CfdpEvent.other 2, 0)]
      = ([], PyResult.raised (PyErr.valueError "boom")) ∧
    ¬ ((monitor_loop crashingHandlers entityInit
          [(CfdpEvent.other 1, 0), (CfdpEvent.other 2, 0)]).1
        = [CfdpEvent.other 1, CfdpEvent.other 2]) := by
  constructor
  · rfl
  · intro h
    simp [monitor_loop, monitor_step, dispatch_handler, crashingHandlers] at h

/-- C4 amended: the monitor loop survives only KeyError-shaped handler
failures. Whenever every dispatch of the registered handlers either
succeeds, is missing, or raises KeyError (so no dispatch lets an exception
escape), the loop processes every fetched event and ends normally; a
handler exception of any other type terminates the loop at that event, as
the counterexample shows. -/
theorem monitor_survives_keyerror (handlers : Handlers) (st : EntityState)
    (evs : List (CfdpEvent × Nat))
    (h : ∀ key evt p, dispatch_handler handlers key evt p = none) :
    (monitor_loop handlers st evs).1 = evs.map Prod.fst ∧
    ∃ stFinal, (monitor_loop handlers st evs).2 = PyResult.ok stFinal := by
  induction evs generalizing st with
  | nil => exact ⟨rfl, st, rfl⟩
  | cons ev rest ih =>
    obtain ⟨evt, p⟩ := ev
    have hstep : ∀ s : EntityState, ∃ s2, monitor_step handlers s evt p = PyResult.ok s2 := by
      intro s
      unfold monitor_step
      rcases Decidable.em (evt = CfdpEvent.noEvent) with he | he
      · exact ⟨s, by simp [he]⟩
      · rw [if_neg he, h evt evt p, h CfdpEvent.allInd evt p]
        exact ⟨_, rfl⟩
    obtain ⟨s2, hs2⟩ := hstep st
    have := ih s2
    simp only [monitor_loop, hs2, List.map_cons]
    exact ⟨by rw [this.1], this.2⟩

/-- A handler table whose single handler, registered for the wildcard key,
always raises KeyError. -/
def keyErrorHandlers : Handlers := fun key =>
  if key = CfdpEvent.allInd then some (fun _ _ => HandlerOutcome.raiseKeyError)
  else none

/-- Witness for monitor_survives_keyerror: a wildcard handler that raises
KeyError on every event does not stop the loop from processing both fetched
events. -/
theorem monitor_survives_keyerror_witness :
    (∀ key evt p, dispatch_handler keyErrorHandlers key evt p = none) ∧
    ((monitor_loop keyErrorHandlers entityInit
        [(CfdpEvent.other 1, 0), (CfdpEvent.txnFinished, 0)]).1
      = [CfdpEvent.other 1, CfdpEvent.txnFinished] ∧
     ∃ stFinal,
       (monitor_loop keyErrorHandlers entityInit
          [(CfdpEvent.other 1, 0), (CfdpEvent.txnFinished, 0)]).2
         = PyResult.ok stFinal) := by
  have h : ∀ key evt p, dispatch_handler keyErrorHandlers key evt p = none := by
    intro key evt p
    unfold dispatch_handler keyErrorHandlers
    rcases Decidable.em (key = CfdpEvent.allInd) with hk | hk <;> simp [hk]
  exact ⟨h, monitor_survives_keyerror keyErrorHandlers entityInit _ h⟩

/-- Operations that write the _ok_transaction flag of an Entity over its
lifetime: cfdp_send and cfdp_request reset it to False before triggering
the engine, and the monitor loop calls _mark_transaction_end with the
transaction outcome. -/
inductive TxOp where
  | send
  | request
  | markEnd (success : Bool)
  deriving DecidableEq, Repr

/-- Effect of one flag-writing operation on the entity state. -/
def apply_tx_op (st : EntityState) : TxOp → EntityState
  | TxOp.send => { st with ok_transaction := false }
  | TxOp.request => { st with ok_transaction := false }
  | TxOp.markEnd success => mark_transaction_end st success

/-- State of the entity after a sequence of flag-writing operations. -/
def run_tx_ops (st : EntityState) (ops : List TxOp) : EntityState :=
  ops.foldl apply_tx_op st

/-- Entity.wait_for_transaction_end: wait on the _end_transaction event
with the caller timeout, then return _ok_transaction. The boolean returned
by Event.wait (False exactly when the wait timed out) is ignored by the
code, so the returned flag does not depend on whether the wait timed out. -/
def wait_for_transaction_end (st : EntityState) (_timedOut : Bool) : Bool :=
  st.ok_transaction

/-- The claim wording for the value a timed-out wait returns: the success
flag of the most recently completed transaction, False when no transaction
has completed since the entity was opened or since the last cfdp_send or
cfdp_request reset the flag. -/
def spec_recent_outcome (ops : List TxOp) : Bool :=
  match ops.getLast? with
  | none => false
  | some (TxOp.markEnd success) => success
  | some TxOp.send => false
  | some TxOp.request => false

/-- The flag value each operation leaves in _ok_transaction. -/
def last_write (op : TxOp) : Bool :=
  match op with
  | TxOp.send => false
  | TxOp.request => false
  | TxOp.markEnd success => success

theorem run_tx_ops_ok (ops : List TxOp) :
    ∀ st : EntityState,
      (run_tx_ops st ops).ok_transaction
        = ((ops.getLast?).map last_write).getD st.ok_transaction := by
  induction ops with
  | nil => intro st; rfl
  | cons op rest ih =>
    intro st
    cases rest with
    | nil => cases op <;> rfl
    | cons op2 rest2 =>
      rw [show run_tx_ops st (op :: op2 :: rest2)
            = run_tx_ops (apply_tx_op st op) (op2 :: rest2) from rfl,
          List.getLast?_cons_cons, ih (apply_tx_op st op)]
      rcases h : (op2 :: rest2).getLast? with _ | a
      · rw [List.getLast?_eq_none_iff] at h; cases h
      · rfl

/-- C10: for every operation history of an opened entity, a call to
wait_for_transaction_end whose wait timed out returns exactly the persisted
flag described by the claim — the success of the most recently completed
transaction, False when none has completed since open or since the last
cfdp_send or cfdp_request reset — and its return value is identical to that
of a call whose wait was actually signalled on the same state, so the two
are indistinguishable to the caller. -/
theorem wait_timeout_returns_persisted (ops : List TxOp) :
    wait_for_transaction_end (run_tx_ops entityInit ops) true = spec_recent_outcome ops ∧
    wait_for_transaction_end (run_tx_ops entityInit ops) true
      = wait_for_transaction_end (run_tx_ops entityInit ops) false := by
  refine ⟨?_, rfl⟩
  rw [wait_for_transaction_end, run_tx_ops_ok ops entityInit]
  unfold spec_recent_outcome
  rcases h : ops.getLast? with _ | op
  · rfl
  · cases op <;> rfl

/-! ## Endpoint close (Endpoint.close, BpProxy.bp_close, BpProxy.bp_interrupt) -/

/-- Combined state of one Endpoint and its owning BpProxy, as touched by
the close path: the proxy attached flag, whether the endpoint eid is in the
proxy _ept_map, the endpoint _sap_addr and eid fields, whether the endpoint
still holds its proxy back-reference, and counters for the native
_bp.bp_close and _bp.bp_interrupt calls. -/
structure CloseState where
  attached : Bool
  inMap : Bool
  sap_addr : Option Nat
  eid : Option Nat
  hasProxy : Bool
  engineCloses : Nat
  engineInterrupts : Nat
  deriving DecidableEq, Repr

/-- Endpoint.is_open: the proxy back-reference and the _sap_addr are both
set. -/
def ept_is_open (s : CloseState) : Bool := s.hasProxy && s.sap_addr.isSome

/-- BpProxy.bp_interrupt on this endpoint: requires the proxy attached
(IOError otherwise); raises ConnectionError when the eid is not in
_ept_map; otherwise calls _bp.bp_interrupt. -/
def bp_interrupt (s : CloseState) : CloseState × Option PyErr :=
  if !s.attached then
    (s, some (PyErr.ioError "Not attached to ION, call attach first."))
  else if !s.inMap then
    (s, some (PyErr.connectionError "Cannot interrupt endpoint. It is not open."))
  else
    ({ s with engineInterrupts := s.engineInterrupts + 1 }, none)

/-- BpProxy.bp_close on this endpoint: requires the proxy attached; first
interrupts the endpoint (a ConnectionError there is re-raised as a cannot
close error); then pops the eid from _ept_map; if the popped endpoint is
already closed it returns; otherwise it calls _bp.bp_close on the sap
address and clears the endpoint fields (_cleanup). -/
def bp_close (s : CloseState) : CloseState × Option PyErr :=
  if !s.attached then
    (s, some (PyErr.ioError "Not attached to ION, call attach first."))
  else
    match bp_interrupt s with
    | (s1, some _) =>
      (s1, some (PyErr.connectionError "Cannot close endpoint. It is not open."))
    | (s1, none) =>
      let s2 := { s1 with inMap := false }
      if !(ept_is_open s2) then (s2, none)
      else
        let s3 := { s2 with engineCloses := s2.engineCloses + 1 }
        ({ s3 with sap_addr := none, eid := none, hasProxy := false }, none)

/-- Endpoint.close: a no-op when the endpoint is not open, otherwise it
delegates to the owning proxy bp_close. -/
def endpoint_close (s : CloseState) : CloseState × Option PyErr :=
  if !(ept_is_open s) then (s, none) else bp_close s

/-- C5: for an open endpoint of an attached proxy, close succeeds, and a
second close is a no-op: it raises nothing, changes nothing, and makes no
native call (the close and interrupt counters are unchanged), so two
consecutive closes have the same observable effect as one. -/
theorem endpoint_close_idempotent (s : CloseState) (hatt : s.attached = true)
    (hmap : s.inMap = true) (hopen : ept_is_open s = true) :
    (endpoint_close s).2 = none ∧
    endpoint_close (endpoint_close s).1 = ((endpoint_close s).1, none) ∧
    (endpoint_close (endpoint_close s).1).1.engineCloses
      = (endpoint_close s).1.engineCloses ∧
    (endpoint_close (endpoint_close s).1).1.engineInterrupts
      = (endpoint_close s).1.engineInterrupts := by
  have hco := hopen
  simp only [ept_is_open, Bool.and_eq_true] at hco
  obtain ⟨hp, hsap⟩ := hco
  have h1 : endpoint_close s =
      ({ s with inMap := false, engineInterrupts := s.engineInterrupts + 1,
                engineCloses := s.engineCloses + 1,
                sap_addr := none, eid := none, hasProxy := false }, none) := by
    unfold endpoint_close bp_close bp_interrupt ept_is_open
    simp [hopen, hatt, hmap, hsap, hp]
  rw [h1]
  refine ⟨rfl, ?_, ?_, ?_⟩ <;> rfl

/-- A concrete open endpoint of an attached proxy. -/
def openCloseState : CloseState :=
  { attached := true, inMap := true, sap_addr := some 42, eid := some 11,
    hasProxy := true, engineCloses := 0, engineInterrupts := 0 }

/-- Witness for endpoint_close_idempotent on a concrete open endpoint. -/
theorem endpoint_close_idempotent_witness :
    openCloseState.attached = true ∧ openCloseState.inMap = true ∧
    ept_is_open openCloseState = true ∧
    ((endpoint_close openCloseState).2 = none ∧
     endpoint_close (endpoint_close openCloseState).1
       = ((endpoint_close openCloseState).1, none) ∧
     (endpoint_close (endpoint_close openCloseState).1).1.engineCloses
       = (endpoint_close openCloseState).1.engineCloses ∧
     (endpoint_close (endpoint_close openCloseState).1).1.engineInterrupts
       = (endpoint_close openCloseState).1.engineInterrupts) :=
  ⟨rfl, rfl, rfl, endpoint_close_idempotent openCloseState rfl rfl rfl⟩

/-! ## Endpoint open (BpProxy.bp_open) -/

/-- Lookup in a Python dict modelled as an association list (latest entry
first). -/
def plookup {A : Type} : List (Nat × A) → Nat → Option A
  | [], _ => none
  | (k, v) :: rest, key => if key = k then some v else plookup rest key

/-- The default parameters an Endpoint is constructed with by bp_open. -/
structure EptParams where
  ttl : Nat
  priority : Nat
  custody : Nat
  report_flags : Nat
  ack_req : Bool
  retx_timer : Nat
  chunk_size : Option Nat
  timeout : Option Nat
  mem_ctrl : Bool
  deriving DecidableEq, Repr

/-- The Endpoint object created by bp_open: its eid, the sap address
returned by _bp.bp_open, the parameters stored as defaults, and the
detained flag derived from retx_timer. -/
structure EndpointObj where
  eid : Nat
  sap_addr : Nat
  params : EptParams
  detained : Bool
  deriving DecidableEq, Repr

/-- State of a BpProxy for opening endpoints: attach flag, the _ept_map,
the count of native _bp.bp_open calls, and the next sap address the engine
would hand out. -/
structure BpProxyState where
  attached : Bool
  ept_map : List (Nat × EndpointObj)
  engineOpens : Nat
  nextSap : Nat
  deriving DecidableEq, Repr

/-- BpProxy.bp_open: requires the proxy attached (IOError otherwise); if
the eid already has a live Endpoint in _ept_map it is returned unchanged
and nothing else happens; otherwise the engine allocates a sap address
(one _bp.bp_open call), an Endpoint is constructed with the supplied
parameters and detained flag retx_timer greater than zero, stored in
_ept_map under the eid, and returned. -/
def bp_open (s : BpProxyState) (eid : Nat) (p : EptParams) :
    BpProxyState × PyResult EndpointObj :=
  if !s.attached then
    (s, PyResult.raised (PyErr.ioError "Not attached to ION, call attach first."))
  else
    match plookup s.ept_map eid with
    | some ept => (s, PyResult.ok ept)
    | none =>
      let ept : EndpointObj :=
        { eid := eid, sap_addr := s.nextSap, params := p,
          detained := decide (p.retx_timer > 0) }
      ({ s with ept_map := (eid, ept) :: s.ept_map,
                engineOpens := s.engineOpens + 1,
                nextSap := s.nextSap + 1 },
       PyResult.ok ept)

/-- C6: on an attached proxy, opening an eid that is not yet open creates
an endpoint carrying the supplied parameters, and a second bp_open of the
same eid with different parameters leaves the proxy state untouched (in
particular the count of native _bp.bp_open calls, so no second engine open
happens) and returns the very same endpoint, with the first call
parameters preserved and the new ones ignored. -/
theorem bp_open_idempotent (s : BpProxyState) (eid : Nat) (p1 p2 : EptParams)
    (hatt : s.attached = true) (hnew : plookup s.ept_map eid = none) :
    ∃ ept : EndpointObj,
      (bp_open s eid p1).2 = PyResult.ok ept ∧
      ept.params = p1 ∧
      bp_open (bp_open s eid p1).1 eid p2 = ((bp_open s eid p1).1, PyResult.ok ept) ∧
      (bp_open (bp_open s eid p1).1 eid p2).1.engineOpens
        = (bp_open s eid p1).1.engineOpens := by
  refine ⟨{ eid := eid, sap_addr := s.nextSap, params := p1,
            detained := decide (p1.retx_timer > 0) }, ?_, rfl, ?_, ?_⟩
  · unfold bp_open
    simp [hatt, hnew]
  · unfold bp_open
    simp [hatt, hnew, plookup]
  · unfold bp_open
    simp [hatt, hnew, plookup]

/-- A fresh attached proxy with no open endpoints. -/
def freshBpProxy : BpProxyState :=
  { attached := true, ept_map := [], engineOpens := 0, nextSap := 100 }

/-- Two distinct parameter sets for the witness. -/
def eptParamsA : EptParams :=
  { ttl := 3600, priority := 1, custody := 0, report_flags := 0, ack_req := false,
    retx_timer := 0, chunk_size := none, timeout := none, mem_ctrl := false }

/-- Second parameter set, differing from eptParamsA in several fields. -/
def eptParamsB : EptParams :=
  { ttl := 60, priority := 2, custody := 1, report_flags := 3, ack_req := true,
    retx_timer := 5, chunk_size := some 64, timeout := some 9, mem_ctrl := true }

/-- Witness for bp_open_idempotent: open twice on a fresh attached proxy
with different parameters. -/
theorem bp_open_idempotent_witness :
    freshBpProxy.attached = true ∧ plookup freshBpProxy.ept_map 11 = none ∧
    ∃ ept : EndpointObj,
      (bp_open freshBpProxy 11 eptParamsA).2 = PyResult.ok ept ∧
      ept.params = eptParamsA ∧
      bp_open (bp_open freshBpProxy 11 eptParamsA).1 11 eptParamsB
        = ((bp_open freshBpProxy 11 eptParamsA).1, PyResult.ok ept) ∧
      (bp_open (bp_open freshBpProxy 11 eptParamsA).1 11 eptParamsB).1.engineOpens
        = (bp_open freshBpProxy 11 eptParamsA).1.engineOpens :=
  ⟨rfl, rfl, bp_open_idempotent freshBpProxy 11 eptParamsA eptParamsB rfl rfl⟩

/-! ## Proxy registry (utils._register_proxy, proxies.get_bp_proxy) -/

/-- utils._register_proxy: the singleton mechanism for proxies. If the key
is already in the proxy map the registered proxy is returned and nothing is
constructed; otherwise a new proxy is constructed by the factory,
registered under the key, and returned. The boolean reports whether a
construction happened. -/
def register_proxy {A : Type} (proxy_map : List (Nat × A)) (key : Nat)
    (factory : Nat → A) : List (Nat × A) × A × Bool :=
  match plookup proxy_map key with
  | some p => (proxy_map, p, false)
  | none =>
    let p := factory key
    ((key, p) :: proxy_map, p, true)

/-- A sequence of registry lookups starting from a registry state: each
requested key goes through _register_proxy. -/
def run_lookups {A : Type} (factory : Nat → A) :
    List (Nat × A) → List Nat → List (Nat × A)
  | m, [] => m
  | m, k :: ks => run_lookups factory (register_proxy m k factory).1 ks

theorem run_lookups_no_eager {A : Type} (factory : Nat → A) :
    ∀ (ks : List Nat) (m : List (Nat × A)) (k : Nat),
      plookup m k = none → k ∉ ks → plookup (run_lookups factory m ks) k = none := by
  intro ks
  induction ks with
  | nil => intro m k hm _; exact hm
  | cons k2 ks2 ih =>
    intro m k hm hk
    have hk2 : k ≠ k2 := fun h => hk (h ▸ List.mem_cons_self k2 ks2)
    have hks2 : k ∉ ks2 := fun h => hk (List.mem_cons_of_mem k2 h)
    show plookup (run_lookups factory (register_proxy m k2 factory).1 ks2) k = none
    refine ih _ k ?_ hks2
    unfold register_proxy
    rcases h2 : plookup m k2 with _ | p
    · simpa [plookup, hk2] using hm
    · exact hm

/-- C7: the registry lookup returns the already-registered proxy when one
exists for the key (no construction); only otherwise does it construct one
through the factory, register it, and return it; and starting from an empty
registry, a key that never appears in the requested sequence has no proxy
registered (no eager population). -/
theorem register_proxy_spec {A : Type} (factory : Nat → A) :
    (∀ (m : List (Nat × A)) (key : Nat) (p : A),
        plookup m key = some p → register_proxy m key factory = (m, p, false)) ∧
    (∀ (m : List (Nat × A)) (key : Nat),
        plookup m key = none →
          register_proxy m key factory = ((key, factory key) :: m, factory key, true)) ∧
    (∀ (ks : List Nat) (k : Nat), k ∉ ks →
        plookup (run_lookups factory [] ks) k = none) := by
  refine ⟨?_, ?_, ?_⟩
  · intro m key p h; unfold register_proxy; rw [h]
  · intro m key h; unfold register_proxy; rw [h]
  · intro ks k hk
    exact run_lookups_no_eager factory ks [] k rfl hk

/-- Witness for register_proxy_spec with a concrete factory: a hit returns
the registered proxy, a miss constructs and registers, and a key never
requested is absent from the registry built by two lookups. -/
theorem register_proxy_spec_witness :
    register_proxy [(1, 101)] 1 (fun n => n + 100) = ([(1, 101)], 101, false) ∧
    register_proxy ([] : List (Nat × Nat)) 2 (fun n => n + 100)
      = ([(2, 102)], 102, true) ∧
    plookup (run_lookups (fun n => n + 100) [] [1, 2]) 5 = none :=
  ⟨(register_proxy_spec (fun n => n + 100)).1 [(1, 101)] 1 101 rfl,
   (register_proxy_spec (fun n => n + 100)).2.1 [] 2 rfl,
   (register_proxy_spec (fun n => n + 100)).2.2 [1, 2] 5 (by decide)⟩

/-- A BP/CFDP/LTP proxy as seen by the lookup functions: its node key and
attach flag. Proxy construction (utils.Proxy.__init__) sets attached to
False. -/
structure ProxyObj where
  node : Nat
  attached : Bool
  deriving DecidableEq, Repr

/-- Observable result of one get_bp_proxy / get_cfdp_proxy / get_ltp_proxy
call: the registry afterwards, the returned proxy, and the cumulative count
of engine-level attach calls. -/
structure GetProxyResult where
  registry : List (Nat × ProxyObj)
  proxy : ProxyObj
  engineAttaches : Nat
  deriving DecidableEq, Repr

/-- proxies.get_bp_proxy (the CFDP and LTP lookups have the same shape):
run _register_proxy for the node, then unconditionally call bp_attach on
the returned proxy — one engine-level attach call, after which the proxy
attached flag is True. The registry entry is the same mutated object. -/
def get_bp_proxy (reg : List (Nat × ProxyObj)) (node : Nat) (attaches : Nat) :
    GetProxyResult :=
  let r := register_proxy reg node (fun n => { node := n, attached := false })
  let p : ProxyObj := { r.2.1 with attached := true }
  { registry := r.1.map (fun kv => if kv.1 = node then (kv.1, p) else kv)
    proxy := p
    engineAttaches := attaches + 1 }

theorem register_proxy_lookup {A : Type} (m : List (Nat × A)) (key : Nat)
    (factory : Nat → A) :
    plookup (register_proxy m key factory).1 key
      = some (register_proxy m key factory).2.1 := by
  unfold register_proxy
  rcases h : plookup m key with _ | p
  · simp [plookup]
  · exact h

theorem plookup_map_update {A : Type} (p : A) (key : Nat) :
    ∀ m : List (Nat × A), (plookup m key).isSome = true →
      plookup (m.map fun kv => if kv.1 = key then (kv.1, p) else kv) key = some p := by
  intro m
  induction m with
  | nil => intro h; cases h
  | cons kv rest ih =>
    intro h
    obtain ⟨k, v⟩ := kv
    rw [List.map_cons]
    by_cases hk : k = key
    · subst hk
      rw [show (if (k, v).1 = k then ((k, v).1, p) else (k, v)) = (k, p) from if_pos rfl]
      show (if k = k then some p
            else plookup (rest.map fun kv => if kv.1 = k then (kv.1, p) else kv) k) = some p
      rw [if_pos rfl]
    · rw [show (if (k, v).1 = key then ((k, v).1, p) else (k, v)) = (k, v) from if_neg hk]
      show (if key = k then some v
            else plookup (rest.map fun kv => if kv.1 = key then (kv.1, p) else kv) key) = some p
      rw [if_neg (fun h2 => hk h2.symm)]
      apply ih
      have h2 : (if key = k then some v else plookup rest key).isSome = true := h
      rwa [if_neg (fun h3 => hk h3.symm)] at h2

/-- C9: every proxy-lookup call makes exactly one engine-level attach call
(also when the proxy was already registered, and regardless of its previous
attach state), and returns a proxy whose attached flag is True, which is
also the object registered under the node key afterwards. -/
theorem get_proxy_always_attached (reg : List (Nat × ProxyObj)) (node attaches : Nat) :
    (get_bp_proxy reg node attaches).engineAttaches = attaches + 1 ∧
    (get_bp_proxy reg node attaches).proxy.attached = true ∧
    plookup (get_bp_proxy reg node attaches).registry node
      = some (get_bp_proxy reg node attaches).proxy := by
  refine ⟨rfl, rfl, ?_⟩
  show plookup ((register_proxy reg node _).1.map _) node = _
  apply plookup_map_update
  rw [register_proxy_lookup reg node (fun n => { node := n, attached := false })]
  rfl

/-! ## Resource sampler (MemoryProxy._start_monitoring loop body) -/

/-- A stored sample in a result series: a dump value (abstracted to a
number), a stored exception object, or Python None. -/
inductive Sample where
  | value (v : Nat)
  | errSample (e : PyErr)
  | noneSample
  deriving DecidableEq, Repr

/-- State of a memory proxy sampler: the monitor flag, the window timespan
(tspan, -1 meaning never flush), the start of the current window (tic), and
the three result series keyed by measurement timestamp (newest first). -/
structure SamplerState where
  monitor_on : Bool
  tspan : Int
  tic : Nat
  summary : List (Nat × Sample)
  small_pool : List (Nat × Sample)
  large_pool : List (Nat × Sample)
  deriving DecidableEq, Repr

/-- One iteration of the while body of MemoryProxy._start_monitoring at
wall-clock time t, with the engine dump outcome given as a parameter: if
the window has elapsed, the accumulated results are cleared and tic reset
before the new sample is taken; the dump call is guarded by
try/except Exception, storing on failure the exception object as the
summary sample and None in the small-pool and large-pool series; the
monitor flag is untouched, so the loop proceeds to the next iteration. -/
def sampler_iter (st : SamplerState) (t : Nat)
    (dump : PyResult (Nat × Nat × Nat)) : SamplerState :=
  let st1 :=
    if st.tspan > 0 ∧ (t : Int) - (st.tic : Int) ≥ st.tspan then
      { st with summary := [], small_pool := [], large_pool := [], tic := t }
    else st
  match dump with
  | PyResult.ok (s, sp, lp) =>
    { st1 with summary := (t, Sample.value s) :: st1.summary,
               small_pool := (t, Sample.value sp) :: st1.small_pool,
               large_pool := (t, Sample.value lp) :: st1.large_pool }
  | PyResult.raised e =>
    { st1 with summary := (t, Sample.errSample e) :: st1.summary,
               small_pool := (t, Sample.noneSample) :: st1.small_pool,
               large_pool := (t, Sample.noneSample) :: st1.large_pool }

/-- A sampler state mid-monitoring with no window. -/
def runningSampler : SamplerState :=
  { monitor_on := true, tspan := -1, tic := 0,
    summary := [], small_pool := [], large_pool := [] }

/-- C8 counterexample: when the engine dump raises, the error object is
recorded as the sample for that timestamp only in the summary series; the
small-pool and large-pool series record None for that timestamp, not the
error, refuting the claim that the error is recorded across all series. -/
theorem sampler_error_cex :
    (sampler_iter runningSampler 3 (PyResult.raised (PyErr.engineError 5))).summary
      = [(3, Sample.errSample (PyErr.engineError 5))] ∧
    (sampler_iter runningSampler 3 (PyResult.raised (PyErr.engineError 5))).small_pool
      = [(3, Sample.noneSample)] ∧
    ¬ ((sampler_iter runningSampler 3 (PyResult.raised (PyErr.engineError 5))).small_pool
        = [(3, Sample.errSample (PyErr.engineError 5))]) := by
  decide

/-- C8 amended: on an engine dump failure the sampler loop does not abort
— the iteration completes with the monitor flag untouched — and the error
is recorded as that timestamp sample in the summary series only, while the
small-pool and large-pool series record None for that timestamp. -/
theorem sampler_error_recorded (st : SamplerState) (t : Nat) (e : PyErr) :
    (sampler_iter st t (PyResult.raised e)).monitor_on = st.monitor_on ∧
    (sampler_iter st t (PyResult.raised e)).summary.head?
      = some (t, Sample.errSample e) ∧
    (sampler_iter st t (PyResult.raised e)).small_pool.head?
      = some (t, Sample.noneSample) ∧
    (sampler_iter st t (PyResult.raised e)).large_pool.head?
      = some (t, Sample.noneSample) := by
  unfold sampler_iter
  rcases Decidable.em (st.tspan > 0 ∧ (t : Int) - (st.tic : Int) ≥ st.tspan) with h | h
  · rw [if_pos h]
    exact ⟨rfl, rfl, rfl, rfl⟩
  · rw [if_neg h]
    exact ⟨rfl, rfl, rfl, rfl⟩

end Pyion
